import Mathlib

/-!
# Verification of the SignCTRL rank/failover state machine

Shallow embedding of `types/signctrled.go` (the `BaseSignCtrled` state
machine: miss counting, promotion, counter locking) and of the message
loop body of `privval/sc_file.go` (`SCFilePV.run`).

Go `int` / `int64` fields are modelled as `Int`; errors returned as Go
`error` values are modelled as `Option SCError` (`none` = nil).  Logging
is I/O only and is dropped.  The `impl` field stored by
`NewBaseSignCtrled` is kept (with an arbitrary type) so that independence
of the behaviour from `impl` can be stated.  One ghost field,
`promoteCalls`, counts entries into `Promote`; it corresponds to no Go
field and no operation reads it.
-/

namespace SignCTRL

/-- The three sentinel errors of `types/signctrled.go`:
`ErrThresholdExceeded`, `ErrMustShutdown`, `ErrCounterLocked`. -/
inductive SCError where
  | thresholdExceeded
  | mustShutdown
  | counterLocked
deriving DecidableEq, Repr

/-- State of `BaseSignCtrled` (signctrled.go, lines 35-44).  `α` is the
type of the stored `impl` value; `promoteCalls` is ghost instrumentation
counting invocations of `Promote` (no Go counterpart, never read). -/
structure BaseSignCtrled (α : Type) where
  counterLocked : Bool
  currentHeight : Int
  missedInARow : Int
  threshold : Int
  rank : Int
  impl : α
  promoteCalls : Nat
deriving Repr

/-- Constructor `NewBaseSignCtrled` (lines 47-60); the logger argument is dropped. -/
def NewBaseSignCtrled (threshold rank : Int) (impl : α) : BaseSignCtrled α :=
  { counterLocked := true
    currentHeight := 1
    missedInARow := 0
    threshold := threshold
    rank := rank
    impl := impl
    promoteCalls := 0 }

/-- Operation `LockCounter` (lines 66-71): sets the lock if it is not already set. -/
def LockCounter (bsc : BaseSignCtrled α) : BaseSignCtrled α :=
  if !bsc.counterLocked then { bsc with counterLocked := true } else bsc

/-- Operation `UnlockCounter` (lines 77-82): clears the lock if it is set. -/
def UnlockCounter (bsc : BaseSignCtrled α) : BaseSignCtrled α :=
  if bsc.counterLocked then { bsc with counterLocked := false } else bsc

/-- Setter `SetCurrentHeight` (lines 90-92). -/
def SetCurrentHeight (bsc : BaseSignCtrled α) (height : Int) : BaseSignCtrled α :=
  { bsc with currentHeight := height }

/-- Setter `SetRank` (lines 111-113): sets the rank to the given value. -/
def SetRank (bsc : BaseSignCtrled α) (rank : Int) : BaseSignCtrled α :=
  { bsc with rank := rank }

/-- Operation `Reset` (lines 156-161): resets the miss counter to 0 if positive. -/
def Reset (bsc : BaseSignCtrled α) : BaseSignCtrled α :=
  if bsc.missedInARow > 0 then { bsc with missedInARow := 0 } else bsc

/-- Operation `Promote` (lines 168-179).  Fails with `ErrMustShutdown` at rank 1
and changes nothing; otherwise decrements the rank, calls `Reset`, and
runs the no-op `OnPromote` hook.  The ghost `promoteCalls` counter is
bumped on entry. -/
def Promote (bsc : BaseSignCtrled α) : BaseSignCtrled α × Option SCError :=
  let b1 := { bsc with promoteCalls := bsc.promoteCalls + 1 }
  if b1.rank = 1 then
    (b1, some SCError.mustShutdown)
  else
    let b2 := { b1 with rank := b1.rank - 1 }
    let b3 := Reset b2
    -- OnPromote (line 183) does nothing
    (b3, none)

/-- Operation `Missed` (lines 122-148).  Fails with `ErrCounterLocked` while the
counter is locked; otherwise increments the miss counter, and on hitting
the threshold exactly runs the no-op `OnMissedTooMany` hook, promotes,
and on success skips one height and fails with `ErrThresholdExceeded`. -/
def Missed (bsc : BaseSignCtrled α) : BaseSignCtrled α × Option SCError :=
  if bsc.counterLocked then
    (bsc, some SCError.counterLocked)
  else
    let b1 := { bsc with missedInARow := bsc.missedInARow + 1 }
    if b1.missedInARow < b1.threshold then
      (b1, none)
    else if b1.missedInARow = b1.threshold then
      -- OnMissedTooMany (line 152) does nothing
      match Promote b1 with
      | (b2, some e) => (b2, some e)
      | (b2, none) =>
        ({ b2 with currentHeight := b2.currentHeight + 1 },
          some SCError.thresholdExceeded)
    else
      (b1, none)

/-- The five state-machine operations named by the reachability claims. -/
inductive Op where
  | lock
  | unlock
  | missed
  | reset
  | promote
deriving DecidableEq, Repr

/-- Apply one operation, returning the new state and the returned error
(`LockCounter`, `UnlockCounter` and `Reset` return no error in Go). -/
def applyOp (s : BaseSignCtrled α) : Op → BaseSignCtrled α × Option SCError
  | Op.lock => (LockCounter s, none)
  | Op.unlock => (UnlockCounter s, none)
  | Op.missed => Missed s
  | Op.reset => (Reset s, none)
  | Op.promote => Promote s

/-- Run a sequence of operations, discarding the returned errors. -/
def runOps (s : BaseSignCtrled α) : List Op → BaseSignCtrled α
  | [] => s
  | op :: ops => runOps (applyOp s op).1 ops

/-- Iterate `Missed` (discarding errors) `k` times. -/
def runMissed (s : BaseSignCtrled α) : Nat → BaseSignCtrled α
  | 0 => s
  | k + 1 => (Missed (runMissed s k)).1

/-- A call sequence honours the shutdown protocol: no operation follows a
call that returned `ErrMustShutdown` (the process is required to stop). -/
def stopsAtShutdown (s : BaseSignCtrled α) : List Op → Bool
  | [] => true
  | op :: ops =>
    (decide ((applyOp s op).2 ≠ some SCError.mustShutdown) || ops.isEmpty)
      && stopsAtShutdown (applyOp s op).1 ops

/-- Replace the stored `impl` value, keeping every other field. -/
def copyImpl (s : BaseSignCtrled α) (b : β) : BaseSignCtrled β :=
  { counterLocked := s.counterLocked
    currentHeight := s.currentHeight
    missedInARow := s.missedInARow
    threshold := s.threshold
    rank := s.rank
    impl := b
    promoteCalls := s.promoteCalls }

/-! ## Message loop body (`privval/sc_file.go`, `run`, lines 84-113)

One iteration of the loop is modelled as a pure function from the
outcome of `r.ReadMsg`, the external handler `HandleRequest`, and the
success of `w.WriteMsg`, to a record of the iteration's observable
effects.  Message and response payloads are opaque type parameters. -/

/-- Errors returned by the external `HandleRequest`: the distinguished
`types.ErrMustShutdown`, or any other error (opaque code). -/
inductive HandlerErr where
  | mustShutdown
  | other (code : Nat)
deriving DecidableEq, Repr

/-- Outcome of `r.ReadMsg(&msg)`: success with a decoded message, a clean
`io.EOF`, or any other failure.  In the failure case `residual` is the
content of the `msg` variable after the failed read (the Go code declares
`var msg tm_privvalproto.Message` and still uses it below on this path). -/
inductive ReadOutcome (M : Type) where
  | ok (msg : M)
  | eof
  | fail (code : Nat) (residual : M)

/-- Observable effects of one iteration of the `for` loop in `run`. -/
structure IterEffects (M R : Type) where
  /-- the read error was logged (non-EOF read failure) -/
  readErrLogged : Bool
  /-- the message handed to `HandleRequest`, if it was called -/
  dispatched : Option M
  /-- the response passed to `w.WriteMsg`, if a write was attempted -/
  wroteResponse : Option R
  /-- the write error was logged -/
  writeErrLogged : Bool
  /-- the handler error was logged -/
  handlerErrLogged : Bool
  /-- whether `r.Close()` was called -/
  readerClosed : Bool
  /-- whether `w.Close()` was called -/
  writerClosed : Bool
  /-- whether `pv.Stop()` was called -/
  stopRequested : Bool
  /-- the iteration ends the loop (`return`) instead of looping again -/
  exits : Bool

/-- The part of the loop body after the read: dispatch to
`HandleRequest`, write the response, log failures, and on
`types.ErrMustShutdown` close the framing, stop the service and return. -/
def iterAfterRead (handle : M → R × Option HandlerErr) (msg : M)
    (readErrLogged : Bool) (writeFails : Bool) : IterEffects M R :=
  let resp := (handle msg).1
  let herr := (handle msg).2
  match herr with
  | some HandlerErr.mustShutdown =>
    { readErrLogged := readErrLogged
      dispatched := some msg
      wroteResponse := some resp
      writeErrLogged := writeFails
      handlerErrLogged := true
      readerClosed := true
      writerClosed := true
      stopRequested := true
      exits := true }
  | some (HandlerErr.other _) =>
    { readErrLogged := readErrLogged
      dispatched := some msg
      wroteResponse := some resp
      writeErrLogged := writeFails
      handlerErrLogged := true
      readerClosed := false
      writerClosed := false
      stopRequested := false
      exits := false }
  | none =>
    { readErrLogged := readErrLogged
      dispatched := some msg
      wroteResponse := some resp
      writeErrLogged := writeFails
      handlerErrLogged := false
      readerClosed := false
      writerClosed := false
      stopRequested := false
      exits := false }

/-- One iteration of the `for` loop in `run` (lines 88-112).  On `io.EOF`
the loop `continue`s at once; on any other read failure the error is
logged and control falls through to the dispatch with the residual
message; on a successful read the decoded message is dispatched. -/
def runIteration (handle : M → R × Option HandlerErr)
    (rd : ReadOutcome M) (writeFails : Bool) : IterEffects M R :=
  match rd with
  | ReadOutcome.eof =>
    { readErrLogged := false
      dispatched := none
      wroteResponse := none
      writeErrLogged := false
      handlerErrLogged := false
      readerClosed := false
      writerClosed := false
      stopRequested := false
      exits := false }
  | ReadOutcome.ok msg => iterAfterRead handle msg false writeFails
  | ReadOutcome.fail _ residual => iterAfterRead handle residual true writeFails

/-- The message `HandleRequest` would be called on for a given read
outcome (`none` exactly on the `io.EOF` path). -/
def dispatchedMsg : ReadOutcome M → Option M
  | ReadOutcome.ok msg => some msg
  | ReadOutcome.eof => none
  | ReadOutcome.fail _ residual => some residual

/-! ## Theorems -/

/-- C3: `Promote` in any state with `rank == 1` fails with `MustShutdown`
and mutates no field; when that failure happens inside `Missed`'s
threshold branch, `Missed` returns the `MustShutdown` error unchanged
(not `ThresholdExceeded`) and `currentHeight` is left unmodified. -/
theorem Promote_rank_one_mustShutdown (s : BaseSignCtrled Unit)
    (hr : s.rank = 1) :
    ((Promote s).2 = some SCError.mustShutdown ∧
      (Promote s).1.counterLocked = s.counterLocked ∧
      (Promote s).1.currentHeight = s.currentHeight ∧
      (Promote s).1.missedInARow = s.missedInARow ∧
      (Promote s).1.threshold = s.threshold ∧
      (Promote s).1.rank = s.rank) ∧
    (s.counterLocked = false → s.missedInARow + 1 = s.threshold →
      (Missed s).2 = some SCError.mustShutdown ∧
      (Missed s).1.currentHeight = s.currentHeight) := by
  constructor
  · simp [Promote, hr]
  · intro hl hm
    simp [Missed, hl, hm, Promote, hr]

/-- Witness for C3 at a concrete state (unlocked, one miss short of the
threshold 2, rank 1). -/
theorem Promote_rank_one_mustShutdown_witness :
    ((⟨false, 10, 1, 2, 1, (), 0⟩ : BaseSignCtrled Unit).rank = 1) ∧
    (((Promote (⟨false, 10, 1, 2, 1, (), 0⟩ : BaseSignCtrled Unit)).2 =
        some SCError.mustShutdown ∧
      (Promote (⟨false, 10, 1, 2, 1, (), 0⟩ : BaseSignCtrled Unit)).1.counterLocked = false ∧
      (Promote (⟨false, 10, 1, 2, 1, (), 0⟩ : BaseSignCtrled Unit)).1.currentHeight = 10 ∧
      (Promote (⟨false, 10, 1, 2, 1, (), 0⟩ : BaseSignCtrled Unit)).1.missedInARow = 1 ∧
      (Promote (⟨false, 10, 1, 2, 1, (), 0⟩ : BaseSignCtrled Unit)).1.threshold = 2 ∧
      (Promote (⟨false, 10, 1, 2, 1, (), 0⟩ : BaseSignCtrled Unit)).1.rank = 1) ∧
    (false = false → (1 : Int) + 1 = 2 →
      (Missed (⟨false, 10, 1, 2, 1, (), 0⟩ : BaseSignCtrled Unit)).2 =
        some SCError.mustShutdown ∧
      (Missed (⟨false, 10, 1, 2, 1, (), 0⟩ : BaseSignCtrled Unit)).1.currentHeight = 10)) :=
  ⟨rfl, Promote_rank_one_mustShutdown ⟨false, 10, 1, 2, 1, (), 0⟩ rfl⟩

/-- C4: when `Missed` reaches the threshold and the internal `Promote`
succeeds (`rank ≠ 1`), the call returns `ThresholdExceeded` and
`currentHeight` is afterwards exactly 1 greater than before. -/
theorem Missed_threshold_skips_height (s : BaseSignCtrled Unit)
    (hl : s.counterLocked = false) (hm : s.missedInARow + 1 = s.threshold)
    (hr : s.rank ≠ 1) :
    (Missed s).2 = some SCError.thresholdExceeded ∧
    (Missed s).1.currentHeight = s.currentHeight + 1 := by
  simp [Missed, hl, hm, Promote, hr, Reset]
  split_ifs <;> simp

/-- Witness for C4 at a concrete state (unlocked, one miss short of the
threshold 2, rank 3). -/
theorem Missed_threshold_skips_height_witness :
    ((⟨false, 10, 1, 2, 3, (), 0⟩ : BaseSignCtrled Unit).counterLocked = false) ∧
    ((⟨false, 10, 1, 2, 3, (), 0⟩ : BaseSignCtrled Unit).missedInARow + 1 =
      (⟨false, 10, 1, 2, 3, (), 0⟩ : BaseSignCtrled Unit).threshold) ∧
    ((⟨false, 10, 1, 2, 3, (), 0⟩ : BaseSignCtrled Unit).rank ≠ 1) ∧
    ((Missed (⟨false, 10, 1, 2, 3, (), 0⟩ : BaseSignCtrled Unit)).2 =
        some SCError.thresholdExceeded ∧
      (Missed (⟨false, 10, 1, 2, 3, (), 0⟩ : BaseSignCtrled Unit)).1.currentHeight = 10 + 1) :=
  ⟨rfl, by decide, by decide,
    Missed_threshold_skips_height ⟨false, 10, 1, 2, 3, (), 0⟩ rfl (by decide) (by decide)⟩

/-- C5: a freshly constructed state is locked with `currentHeight == 1`;
while locked, `Missed` fails with `CounterLocked` and changes nothing;
one `UnlockCounter` only clears the lock, so the next `Missed` behaves
exactly as in the unlocked case. -/
theorem Missed_locked_fails_unchanged (t r : Int) (s : BaseSignCtrled Unit)
    (h : s.counterLocked = true) :
    ((NewBaseSignCtrled t r ()).counterLocked = true ∧
      (NewBaseSignCtrled t r ()).currentHeight = 1) ∧
    Missed s = (s, some SCError.counterLocked) ∧
    UnlockCounter s = { s with counterLocked := false } ∧
    Missed (UnlockCounter s) = Missed { s with counterLocked := false } := by
  refine ⟨⟨rfl, rfl⟩, ?_, ?_, ?_⟩
  · simp [Missed, h]
  · simp [UnlockCounter, h]
  · simp [UnlockCounter, h]

/-- Witness for C5 at the freshly constructed state (threshold 2,
rank 2), which is locked. -/
theorem Missed_locked_fails_unchanged_witness :
    ((NewBaseSignCtrled 2 2 ()).counterLocked = true) ∧
    (((NewBaseSignCtrled 2 2 ()).counterLocked = true ∧
      (NewBaseSignCtrled 2 2 ()).currentHeight = 1) ∧
    Missed (NewBaseSignCtrled 2 2 ()) =
      (NewBaseSignCtrled 2 2 (), some SCError.counterLocked) ∧
    UnlockCounter (NewBaseSignCtrled 2 2 ()) =
      { NewBaseSignCtrled 2 2 () with counterLocked := false } ∧
    Missed (UnlockCounter (NewBaseSignCtrled 2 2 ())) =
      Missed { NewBaseSignCtrled 2 2 () with counterLocked := false }) :=
  ⟨rfl, Missed_locked_fails_unchanged 2 2 (NewBaseSignCtrled 2 2 ()) rfl⟩

/-- C6, counterexample: `SetRank` is an operation of the RankCounter
(an exposed setter) and it can move the rank to a higher number. -/
theorem SetRank_can_increase_rank :
    (SetRank (NewBaseSignCtrled 2 2 ()) 5).rank >
      (NewBaseSignCtrled 2 2 ()).rank := by
  decide

/-- C6, amended: under the five state-machine operations (`LockCounter`,
`UnlockCounter`, `Missed`, `Reset`, `Promote`), `rank ≥ 1` is preserved
and the rank never increases; `SetRank`, by contrast, overwrites the
rank with exactly the caller-supplied value, which may be higher. -/
theorem rank_monotone_ops (s : BaseSignCtrled Unit) (op : Op) (r : Int)
    (h : 1 ≤ s.rank) :
    (1 ≤ (applyOp s op).1.rank ∧ (applyOp s op).1.rank ≤ s.rank) ∧
    (SetRank s r).rank = r := by
  refine ⟨?_, rfl⟩
  cases op <;>
    simp only [applyOp, LockCounter, UnlockCounter, Missed, Reset, Promote] <;>
    split_ifs <;> (try dsimp only) <;> omega

/-- Witness for C6's amended theorem at a concrete state and operation. -/
theorem rank_monotone_ops_witness :
    (1 ≤ (⟨false, 10, 1, 2, 3, (), 0⟩ : BaseSignCtrled Unit).rank) ∧
    ((1 ≤ (applyOp (⟨false, 10, 1, 2, 3, (), 0⟩ : BaseSignCtrled Unit) Op.missed).1.rank ∧
      (applyOp (⟨false, 10, 1, 2, 3, (), 0⟩ : BaseSignCtrled Unit) Op.missed).1.rank ≤ 3) ∧
    (SetRank (⟨false, 10, 1, 2, 3, (), 0⟩ : BaseSignCtrled Unit) 7).rank = 7) :=
  ⟨by decide, rank_monotone_ops ⟨false, 10, 1, 2, 3, (), 0⟩ Op.missed 7 (by decide)⟩

/-- C9: `Reset` is idempotent and (from any reachable counter value,
i.e. `missedInARow ≥ 0`) leaves the counter at 0; `LockCounter` and
`UnlockCounter` are idempotent and round-trip. -/
theorem counter_ops_algebra (s : BaseSignCtrled Unit)
    (h : 0 ≤ s.missedInARow) :
    Reset (Reset s) = Reset s ∧
    (Reset s).missedInARow = 0 ∧
    LockCounter (LockCounter s) = LockCounter s ∧
    UnlockCounter (UnlockCounter s) = UnlockCounter s ∧
    (LockCounter (UnlockCounter s)).counterLocked = true ∧
    (UnlockCounter (LockCounter s)).counterLocked = false := by
  refine ⟨?_, ?_, ?_, ?_, ?_, ?_⟩ <;>
    simp only [Reset, LockCounter, UnlockCounter] <;>
    split_ifs <;> simp_all <;> omega

/-- Witness for C9 at a concrete state with a positive miss counter. -/
theorem counter_ops_algebra_witness :
    (0 ≤ (⟨false, 10, 1, 2, 3, (), 0⟩ : BaseSignCtrled Unit).missedInARow) ∧
    (Reset (Reset (⟨false, 10, 1, 2, 3, (), 0⟩ : BaseSignCtrled Unit)) =
        Reset (⟨false, 10, 1, 2, 3, (), 0⟩ : BaseSignCtrled Unit) ∧
      (Reset (⟨false, 10, 1, 2, 3, (), 0⟩ : BaseSignCtrled Unit)).missedInARow = 0 ∧
      LockCounter (LockCounter (⟨false, 10, 1, 2, 3, (), 0⟩ : BaseSignCtrled Unit)) =
        LockCounter (⟨false, 10, 1, 2, 3, (), 0⟩ : BaseSignCtrled Unit) ∧
      UnlockCounter (UnlockCounter (⟨false, 10, 1, 2, 3, (), 0⟩ : BaseSignCtrled Unit)) =
        UnlockCounter (⟨false, 10, 1, 2, 3, (), 0⟩ : BaseSignCtrled Unit) ∧
      (LockCounter (UnlockCounter (⟨false, 10, 1, 2, 3, (), 0⟩ : BaseSignCtrled Unit))).counterLocked = true ∧
      (UnlockCounter (LockCounter (⟨false, 10, 1, 2, 3, (), 0⟩ : BaseSignCtrled Unit))).counterLocked = false) :=
  ⟨by decide, counter_ops_algebra ⟨false, 10, 1, 2, 3, (), 0⟩ (by decide)⟩

/-- C10: the stored `impl` value is never read by any operation: every
operation commutes with replacing `impl`, so two states differing only
in `impl` produce identical errors and identical transitions on all
other fields (the hooks run inside `Missed` and `Promote` are the base
type's own no-ops). -/
theorem impl_value_irrelevant {α β : Type} (s : BaseSignCtrled α) (b : β)
    (t r : Int) (a : α) :
    Missed (copyImpl s b) = (copyImpl (Missed s).1 b, (Missed s).2) ∧
    Promote (copyImpl s b) = (copyImpl (Promote s).1 b, (Promote s).2) ∧
    Reset (copyImpl s b) = copyImpl (Reset s) b ∧
    LockCounter (copyImpl s b) = copyImpl (LockCounter s) b ∧
    UnlockCounter (copyImpl s b) = copyImpl (UnlockCounter s) b ∧
    SetRank (copyImpl s b) r = copyImpl (SetRank s r) b ∧
    SetCurrentHeight (copyImpl s b) r = copyImpl (SetCurrentHeight s r) b ∧
    NewBaseSignCtrled t r b = copyImpl (NewBaseSignCtrled t r a) b := by
  refine ⟨?_, ?_, ?_, ?_, ?_, rfl, rfl, rfl⟩ <;>
    simp only [Missed, Promote, Reset, LockCounter, UnlockCounter, copyImpl] <;>
    split_ifs <;> rfl

/-- Helper: on a non-EOF read error and after a successful read alike,
the body runs the same dispatch/write/outcome logic on the message in
scope; the two differ only in the read-error log line. -/
theorem runIteration_fail_eq_ok {M R : Type} (handle : M → R × Option HandlerErr)
    (code : Nat) (m : M) (writeFails : Bool) :
    runIteration handle (ReadOutcome.fail code m) writeFails =
      { runIteration handle (ReadOutcome.ok m) writeFails with
        readErrLogged := true } := by
  simp only [runIteration, iterAfterRead]
  rcases h : (handle m).2 with _ | e
  · rfl
  · cases e <;> rfl

/-- C7: the loop body ends the loop exactly when the handler's outcome is
`types.ErrMustShutdown` on the message it was dispatched (never on EOF,
never on a mere read or write failure or a recoverable handler error),
and it closes the delimited reader and writer and requests the service
stop precisely on that exiting iteration. -/
theorem run_exits_iff_mustShutdown {M R : Type} (handle : M → R × Option HandlerErr)
    (rd : ReadOutcome M) (writeFails : Bool) :
    ((runIteration handle rd writeFails).readerClosed =
        (runIteration handle rd writeFails).exits ∧
      (runIteration handle rd writeFails).writerClosed =
        (runIteration handle rd writeFails).exits ∧
      (runIteration handle rd writeFails).stopRequested =
        (runIteration handle rd writeFails).exits) ∧
    ((runIteration handle rd writeFails).exits = true ↔
      ∃ m, dispatchedMsg rd = some m ∧ (handle m).2 = some HandlerErr.mustShutdown) := by
  rcases rd with m | _ | ⟨code, m⟩
  · simp only [runIteration, iterAfterRead, dispatchedMsg]
    rcases h : (handle m).2 with _ | e
    · simp [h]
    · cases e <;> simp [h]
  · simp [runIteration, dispatchedMsg]
  · simp only [runIteration, iterAfterRead, dispatchedMsg]
    rcases h : (handle m).2 with _ | e
    · simp [h]
    · cases e <;> simp [h]

/-- C8, counterexample: on a non-EOF read failure the Go code logs the
error but falls through — with a handler that reports no error, the
residual message is still dispatched to `HandleRequest` and a response
is still written, contradicting "the message is skipped". -/
theorem read_failure_still_dispatches :
    (runIteration (fun m : Nat => (m, (none : Option HandlerErr)))
        (ReadOutcome.fail 7 0) false).dispatched = some 0 ∧
    (runIteration (fun m : Nat => (m, (none : Option HandlerErr)))
        (ReadOutcome.fail 7 0) false).wroteResponse = some 0 := by
  exact ⟨rfl, rfl⟩

/-- C8, amended: a clean end-of-stream makes the loop continue without
dispatching anything; any other read failure is logged and is never by
itself escalated to fatal — but the message variable as left by the
failed read IS dispatched to the handler and a response IS written, and
the iteration's outcome is then decided by the handler exactly as after
a successful read of that message. -/
theorem read_failure_logged_and_falls_through {M R : Type}
    (handle : M → R × Option HandlerErr) (code : Nat) (m : M)
    (writeFails : Bool) :
    ((runIteration handle ReadOutcome.eof writeFails).dispatched = (none : Option M) ∧
      (runIteration handle (ReadOutcome.eof : ReadOutcome M) writeFails).wroteResponse = (none : Option R) ∧
      (runIteration handle (ReadOutcome.eof : ReadOutcome M) writeFails).exits = false) ∧
    (runIteration handle (ReadOutcome.fail code m) writeFails).readErrLogged = true ∧
    (runIteration handle (ReadOutcome.fail code m) writeFails).dispatched = some m ∧
    runIteration handle (ReadOutcome.fail code m) writeFails =
      { runIteration handle (ReadOutcome.ok m) writeFails with
        readErrLogged := true } := by
  refine ⟨⟨rfl, rfl, rfl⟩, ?_, ?_, runIteration_fail_eq_ok handle code m writeFails⟩
  · simp only [runIteration, iterAfterRead]
    rcases h : (handle m).2 with _ | e
    · rfl
    · cases e <;> rfl
  · simp only [runIteration, iterAfterRead]
    rcases h : (handle m).2 with _ | e
    · rfl
    · cases e <;> rfl

/-- Helper for C1: below the threshold, iterating `Missed` from a clean
unlocked state only drives the miss counter up, one per call, leaving
every other field (including the ghost `Promote` counter) untouched. -/
theorem runMissed_below_threshold (s : BaseSignCtrled Unit)
    (h0 : s.missedInARow = 0) (hl : s.counterLocked = false) :
    ∀ k : Nat, (k : Int) < s.threshold →
      runMissed s k = { s with missedInARow := (k : Int) } := by
  obtain ⟨cl, ch, m0, thr, rk, u, pc⟩ := s
  dsimp only at h0 hl ⊢
  subst h0 hl
  intro k
  induction k with
  | zero => intro _; simp [runMissed]
  | succ k ih =>
    intro hk
    have hk' : (k : Int) < thr := by push_cast at hk ⊢; omega
    rw [runMissed, ih hk']
    simp only [Missed]
    have hlt : ((k : Int) + 1) < thr := by push_cast at hk; omega
    simp [hlt]

/-- C1: starting unlocked with `missedInARow == 0` and `rank > 1`, the
first `threshold - 1` calls to `Missed` trigger no `Promote` and leave
the rank unchanged, and the `threshold`-th call triggers exactly one
invocation of `Promote`, immediately after which `missedInARow == 0`
and the rank has decreased by exactly 1. -/
theorem Missed_threshold_promotes_once (s : BaseSignCtrled Unit)
    (h0 : s.missedInARow = 0) (hl : s.counterLocked = false)
    (hr : 1 < s.rank) (ht : 1 ≤ s.threshold) :
    (∀ k : Nat, (k : Int) < s.threshold →
      (runMissed s k).promoteCalls = s.promoteCalls ∧
      (runMissed s k).rank = s.rank ∧
      (runMissed s k).missedInARow = (k : Int)) ∧
    (runMissed s s.threshold.toNat).promoteCalls = s.promoteCalls + 1 ∧
    (runMissed s s.threshold.toNat).missedInARow = 0 ∧
    (runMissed s s.threshold.toNat).rank = s.rank - 1 := by
  obtain ⟨cl, ch, m0, thr, rk, u, pc⟩ := s
  dsimp only at h0 hl hr ht ⊢
  subst h0 hl
  have hbelow :=
    runMissed_below_threshold ⟨false, ch, 0, thr, rk, u, pc⟩ rfl rfl
  constructor
  · intro k hk
    rw [hbelow k hk]
    exact ⟨rfl, rfl, rfl⟩
  · have hn : thr.toNat = (thr.toNat - 1) + 1 := by omega
    have hcast : ((thr.toNat - 1 : Nat) : Int) = thr - 1 := by omega
    have hlt : ((thr.toNat - 1 : Nat) : Int) < thr := by omega
    rw [hn, runMissed, hbelow (thr.toNat - 1) hlt, hcast]
    have h1 : ¬(thr - 1 + 1 < thr) := by omega
    have h2 : thr - 1 + 1 = thr := by ring
    have h3 : ¬(rk = 1) := by omega
    have h4 : (0 : Int) < thr := by omega
    simp [Missed, Promote, Reset, h1, h2, h3, h4]

/-- Witness for C1: threshold 3, rank 3, unlocked, no misses yet; three
calls promote exactly once, reset the counter and move the rank to 2. -/
theorem Missed_threshold_promotes_once_witness :
    ((⟨false, 10, 0, 3, 3, (), 0⟩ : BaseSignCtrled Unit).missedInARow = 0) ∧
    ((⟨false, 10, 0, 3, 3, (), 0⟩ : BaseSignCtrled Unit).counterLocked = false) ∧
    (1 < (⟨false, 10, 0, 3, 3, (), 0⟩ : BaseSignCtrled Unit).rank) ∧
    (1 ≤ (⟨false, 10, 0, 3, 3, (), 0⟩ : BaseSignCtrled Unit).threshold) ∧
    ((∀ k : Nat, (k : Int) < (3 : Int) →
      (runMissed (⟨false, 10, 0, 3, 3, (), 0⟩ : BaseSignCtrled Unit) k).promoteCalls = 0 ∧
      (runMissed (⟨false, 10, 0, 3, 3, (), 0⟩ : BaseSignCtrled Unit) k).rank = 3 ∧
      (runMissed (⟨false, 10, 0, 3, 3, (), 0⟩ : BaseSignCtrled Unit) k).missedInARow = (k : Int)) ∧
    (runMissed (⟨false, 10, 0, 3, 3, (), 0⟩ : BaseSignCtrled Unit) (3 : Int).toNat).promoteCalls = 0 + 1 ∧
    (runMissed (⟨false, 10, 0, 3, 3, (), 0⟩ : BaseSignCtrled Unit) (3 : Int).toNat).missedInARow = 0 ∧
    (runMissed (⟨false, 10, 0, 3, 3, (), 0⟩ : BaseSignCtrled Unit) (3 : Int).toNat).rank = 3 - 1) :=
  ⟨rfl, rfl, by decide, by decide,
    Missed_threshold_promotes_once ⟨false, 10, 0, 3, 3, (), 0⟩ rfl rfl
      (by decide) (by decide)⟩

/-- Helper for C2: one operation, applied to a state whose miss counter
sits strictly below the threshold, leaves the counter within
`[0, threshold]`; and unless the operation returned `ErrMustShutdown`,
the counter is again strictly below the threshold. -/
theorem applyOp_counter_bound (s : BaseSignCtrled Unit) (op : Op)
    (h0 : 0 ≤ s.missedInARow) (h1 : s.missedInARow < s.threshold) :
    (0 ≤ (applyOp s op).1.missedInARow ∧
      (applyOp s op).1.missedInARow ≤ (applyOp s op).1.threshold) ∧
    ((applyOp s op).2 ≠ some SCError.mustShutdown →
      0 ≤ (applyOp s op).1.missedInARow ∧
      (applyOp s op).1.missedInARow < (applyOp s op).1.threshold) := by
  cases op <;>
    simp only [applyOp, LockCounter, UnlockCounter, Missed, Reset, Promote] <;>
    split_ifs <;> simp_all <;> omega

/-- Helper for C2: the invariant `0 ≤ missedInARow ≤ threshold` holds at
the end of any run that starts strictly below the threshold and honours
the shutdown protocol. -/
theorem runOps_counter_bound (ops : List Op) :
    ∀ s : BaseSignCtrled Unit,
      0 ≤ s.missedInARow → s.missedInARow < s.threshold →
      stopsAtShutdown s ops = true →
      0 ≤ (runOps s ops).missedInARow ∧
        (runOps s ops).missedInARow ≤ (runOps s ops).threshold := by
  induction ops with
  | nil =>
    intro s h0 h1 _
    exact ⟨h0, le_of_lt h1⟩
  | cons op ops ih =>
    intro s h0 h1 hv
    simp only [stopsAtShutdown, Bool.and_eq_true, Bool.or_eq_true,
      decide_eq_true_eq, List.isEmpty_iff] at hv
    obtain ⟨hfirst, hrest⟩ := hv
    by_cases hms : (applyOp s op).2 = some SCError.mustShutdown
    · have hops : ops = [] := by
        rcases hfirst with h | h
        · exact absurd hms h
        · exact h
      subst hops
      simpa only [runOps] using (applyOp_counter_bound s op h0 h1).1
    · have hnext := (applyOp_counter_bound s op h0 h1).2 hms
      simpa only [runOps] using ih (applyOp s op).1 hnext.1 hnext.2 hrest

/-- C2, counterexample: with `threshold = 2` and `rank = 1`, the trace
unlock, miss, miss, miss is a sequence of the five operations from the
initial state, and it drives `missedInARow` to 3 > 2 = `threshold` (the
second miss returns `ErrMustShutdown` but the state machine itself does
not stop the caller from calling `Missed` again). -/
theorem missed_counter_invariant_cex :
    (runOps (NewBaseSignCtrled 2 1 ())
        [Op.unlock, Op.missed, Op.missed, Op.missed]).threshold <
      (runOps (NewBaseSignCtrled 2 1 ())
        [Op.unlock, Op.missed, Op.missed, Op.missed]).missedInARow := by
  decide

/-- C2, amended: provided `threshold ≥ 1` (the spec requires `≥ 2`), the
invariant `0 ≤ missedInARow ≤ threshold` holds in every state reachable
from the initial state by a sequence of `LockCounter`, `UnlockCounter`,
`Missed`, `Reset`, `Promote` in which no operation follows a call that
returned `ErrMustShutdown` — in particular it holds immediately after a
`Missed` whose internal `Promote` fails with `MustShutdown` at rank 1. -/
theorem missed_counter_invariant (thr rk : Int) (ops : List Op)
    (ht : 1 ≤ thr)
    (hv : stopsAtShutdown (NewBaseSignCtrled thr rk ()) ops = true) :
    0 ≤ (runOps (NewBaseSignCtrled thr rk ()) ops).missedInARow ∧
    (runOps (NewBaseSignCtrled thr rk ()) ops).missedInARow ≤
      (runOps (NewBaseSignCtrled thr rk ()) ops).threshold :=
  runOps_counter_bound ops (NewBaseSignCtrled thr rk ())
    (le_refl 0) (by simpa [NewBaseSignCtrled] using ht) hv

/-- Witness for C2's amended theorem: threshold 2, rank 1, and the trace
unlock, miss, miss, whose last call returns `ErrMustShutdown` and ends
the sequence; the counter sits at the threshold, not beyond it. -/
theorem missed_counter_invariant_witness :
    ((1 : Int) ≤ 2) ∧
    (stopsAtShutdown (NewBaseSignCtrled 2 1 ())
        [Op.unlock, Op.missed, Op.missed] = true) ∧
    (0 ≤ (runOps (NewBaseSignCtrled 2 1 ())
        [Op.unlock, Op.missed, Op.missed]).missedInARow ∧
      (runOps (NewBaseSignCtrled 2 1 ())
          [Op.unlock, Op.missed, Op.missed]).missedInARow ≤
        (runOps (NewBaseSignCtrled 2 1 ())
          [Op.unlock, Op.missed, Op.missed]).threshold) :=
  ⟨by decide, by decide,
    missed_counter_invariant 2 1 [Op.unlock, Op.missed, Op.missed]
      (by decide) (by decide)⟩

end SignCTRL
